import Mathlib

/-!
Shallow embedding of the `job_bot` automation runner
(`src/job_bot/bot.py`, `src/job_bot/config.py`).

Python values flowing through step options, profile data and metadata are
modelled by the inductive type `Value` (strings, ints, bools, None, bytes,
lists, dicts).  Dicts are association lists whose lookup takes the first
binding; the Python `{**a, **b}` merge is modelled by `dictSet`, which
replaces an existing binding so lookups agree with Python's
last-writer-wins semantics.

The Playwright driver is abstracted as a `Driver` record: every driver
call is recorded as a `DriverCall` trace event, and the driver decides
whether a call raises (e.g. a timeout).  Python exceptions are modelled by
the `PyErr` type; `JobAutomationError` is the `PyErr.jobAutomation`
constructor, which keeps the `raise ... from exc` cause chain.

The Jinja2 template engine is external to the repository; it is modelled
abstractly as a function `TemplateEval = String → Ctx → String`
(`compile(string) -> evaluate(context) -> string`, per the spec's external
interface section).  Properties about template-free strings take the
engine's behaviour on such strings as a hypothesis.
-/

namespace JobBot

/-- A Python value as it appears in configuration data: string, int, bool,
`None`, bytes, list (tuples are modelled as lists), or dict. -/
inductive Value where
  | str (s : String)
  | num (n : Int)
  | bool (b : Bool)
  | none
  | bytes (bs : List Nat)
  | list (xs : List Value)
  | map (es : List (String × Value))
deriving Repr

/-- A rendering context: a Python mapping from names to values. -/
abbrev Ctx := List (String × Value)

/-- The abstract template engine: evaluates a template string against a
context, returning a string (Jinja2's `Environment.from_string(..).render`). -/
abbrev TemplateEval := String → Ctx → String

/-- Python `dict.get(k)`: first binding wins (our dicts keep unique keys,
maintained by `dictSet`). -/
def dictGet? : List (String × Value) → String → Option Value
  | [], _ => Option.none
  | (k₀, v) :: r, k => if k₀ = k then Option.some v else dictGet? r k

/-- Python `d[k] = v` / `{**d, k: v}`: replace any existing binding for `k`. -/
def dictSet (es : List (String × Value)) (k : String) (v : Value) :
    List (String × Value) :=
  (k, v) :: es.filter (fun kv => kv.1 ≠ k)

/-- Python `d.pop(k)`, the removal part: drop the binding for `k`. -/
def popKey (es : List (String × Value)) (k : String) : List (String × Value) :=
  es.filter (fun kv => kv.1 ≠ k)

/-- Python `k in d`. -/
def hasKey (es : List (String × Value)) (k : String) : Bool :=
  (dictGet? es k).isSome

/-- Whether a value is Python `None` (`v is None`). -/
def isNoneV : Value → Bool
  | .none => true
  | _ => false

/-- Python truthiness of a value (`bool(v)`). -/
def truthy : Value → Bool
  | .str s => s ≠ ""
  | .num n => n ≠ 0
  | .bool b => b
  | .none => false
  | .bytes bs => !bs.isEmpty
  | .list xs => !xs.isEmpty
  | .map es => !es.isEmpty

mutual
/-- Python `str(v)`.  For containers this is the `repr`; string escaping
inside reprs is not modelled (no claim evaluates it). -/
def pyStr : Value → String
  | .str s => s
  | v => pyRepr v

/-- Python `repr(v)` (string escaping inside reprs not modelled). -/
def pyRepr : Value → String
  | .str s => "\x27" ++ s ++ "\x27"
  | .num n => toString n
  | .bool b => if b then "True" else "False"
  | .none => "None"
  | .bytes _ => "b\x27...\x27"
  | .list xs => "[" ++ pyReprList xs ++ "]"
  | .map es => "\x7b" ++ pyReprEntries es ++ "\x7d"

def pyReprList : List Value → String
  | [] => ""
  | [v] => pyRepr v
  | v :: r => pyRepr v ++ ", " ++ pyReprList r

def pyReprEntries : List (String × Value) → String
  | [] => ""
  | [(k, v)] => "\x27" ++ k ++ "\x27: " ++ pyRepr v
  | (k, v) :: r => "\x27" ++ k ++ "\x27: " ++ pyRepr v ++ ", " ++ pyReprEntries r
end

/-- The Python exception values the engine can raise or propagate. -/
inductive PyErr where
  /-- `JobAutomationError(msg)`, with the `raise ... from exc` cause. -/
  | jobAutomation (msg : String) (cause : Option PyErr)
  /-- `playwright.sync_api.TimeoutError`. -/
  | timeout (msg : String)
  /-- Any other exception (`ValueError`, `TypeError`, driver errors, ...). -/
  | other (tag : String)
deriving Repr

/-- Python `int(v)`: ints pass through, bools are 0/1, numeric strings are
parsed, anything else raises. -/
def pyInt : Value → Except PyErr Int
  | .num n => .ok n
  | .bool b => .ok (if b then 1 else 0)
  | .str s =>
    match s.trim.toInt? with
    | Option.some n => .ok n
    | Option.none => .error (.other "ValueError")
  | _ => .error (.other "TypeError")

mutual
/-- `JobApplicationBot._render` (bot.py lines 94-102): strings are evaluated
as templates against the context, mappings have their values recursively
rendered (keys untouched), iterables other than strings/bytes become lists
of rendered elements, and every other value passes through unchanged. -/
def render (evalT : TemplateEval) (ctx : Ctx) : Value → Value
  | .str s => .str (evalT s ctx)
  | .map es => .map (renderEntries evalT ctx es)
  | .list xs => .list (renderList evalT ctx xs)
  | v => v

def renderList (evalT : TemplateEval) (ctx : Ctx) : List Value → List Value
  | [] => []
  | v :: r => render evalT ctx v :: renderList evalT ctx r

def renderEntries (evalT : TemplateEval) (ctx : Ctx) :
    List (String × Value) → List (String × Value)
  | [] => []
  | (k, v) :: r => (k, render evalT ctx v) :: renderEntries evalT ctx r
end

/-- One call into the Playwright driver (the external collaborator's
capability set from the spec's external-interface section). -/
inductive DriverCall where
  | goto (url : String) (waitUntil : String) (timeout : Int)
  | fill (selector value : String) (timeout : Int)
  | typeText (selector value : String) (timeout : Int) (delay : Option Int)
  | click (selector : String) (timeout : Int) (button : Option String)
      (clickCount : Option Int) (delay : Option Int)
  | check (selector : String) (timeout : Int)
  | uncheck (selector : String) (timeout : Int)
  | selectOption (selector : String) (timeout : Int) (value : Option String)
      (values : Option (List String))
  | setInputFiles (selector : String) (files : List String) (timeout : Int)
  | waitForTimeout (ms : Int)
  | waitForSelector (selector : String) (timeout : Int) (state : Option String)
  | locatorWaitFor (selector : String) (state : String) (timeout : Int)
  | innerText (selector : String)
  | content
  | press (selector keys : String) (timeout : Int)
  | hover (selector : String) (timeout : Int)
deriving Repr, DecidableEq

/-- The abstract driver: decides whether each call raises, and what the
value-returning calls (`inner_text`, `content`) return. -/
structure Driver where
  act : DriverCall → Except PyErr Unit
  innerTextRes : String → Except PyErr String
  contentRes : Except PyErr String

/-- The slice of `JobApplicationBot` the handlers use: the configuration's
base directory, for `_path_helper`. -/
structure Bot where
  base_dir : String

/-- `JobApplicationBot._path_helper` (bot.py lines 90-92):
`(base_dir / relative).expanduser().resolve()` as a string.  pathlib join
semantics: an absolute right operand replaces the base.  `expanduser` and
`resolve` are modelled as the identity, which is what they compute on an
absolute joined path with no `~`, `.`/`..` components or symlinks. -/
def pathHelper (bot : Bot) (relative : String) : String :=
  if relative.toList.head? = Option.some '/' then relative
  else if bot.base_dir.toList.getLast? = Option.some '/' then
    bot.base_dir ++ relative
  else bot.base_dir ++ "/" ++ relative

/-- `pathlib.Path.parent` on a path string (drop the last component). -/
def parentDir (p : String) : String :=
  String.intercalate "/" (p.splitOn "/").dropLast

/-- `_ensure_files` (bot.py lines 166-171): a list or tuple is mapped to
`str` element-wise, any other value becomes a one-element list; each entry
is then resolved through `_path_helper`. -/
def ensureFiles (bot : Bot) (value : Value) : List String :=
  let files :=
    match value with
    | .list xs => xs.map pyStr
    | v => [pyStr v]
  files.map (pathHelper bot)

/-- The common shape of the action handlers: driver, rendered options,
timeout, bot reference; result is the trace of driver calls made plus
either success or the raised exception. -/
abbrev Handler :=
  Driver → List (String × Value) → Int → Bot → List DriverCall × Except PyErr Unit

/-- `_require_selector` (bot.py lines 159-163): a falsy (or absent, hence
`None`) `selector` raises `JobAutomationError`. -/
def requireSelector (step : List (String × Value)) : Except PyErr String :=
  let selector := (dictGet? step "selector").getD Value.none
  if truthy selector then .ok (pyStr selector)
  else .error (.jobAutomation "Step requires a \x27selector\x27" Option.none)

/-- Make the single driver call `c`. -/
def doCall (d : Driver) (c : DriverCall) : List DriverCall × Except PyErr Unit :=
  ([c], d.act c)

/-- `handle_fill` (bot.py lines 174-179). -/
def handle_fill : Handler := fun d step t _ =>
  match requireSelector step with
  | .error e => ([], .error e)
  | .ok selector =>
    if !hasKey step "value" then
      ([], .error (.jobAutomation "Fill action requires a \x27value\x27" Option.none))
    else
      let value := (dictGet? step "value").getD Value.none
      doCall d (.fill selector (pyStr value) t)

/-- `handle_type` (bot.py lines 182-189). -/
def handle_type : Handler := fun d step t _ =>
  match requireSelector step with
  | .error e => ([], .error e)
  | .ok selector =>
    let value := (dictGet? step "value").getD (Value.str "")
    let delay := (dictGet? step "delay").getD Value.none
    match (if isNoneV delay then .ok Option.none
           else (pyInt delay).map Option.some : Except PyErr (Option Int)) with
    | .error e => ([], .error e)
    | .ok delayOpt => doCall d (.typeText selector (pyStr value) t delayOpt)

/-- `handle_click` (bot.py lines 192-201). -/
def handle_click : Handler := fun d step t _ =>
  match requireSelector step with
  | .error e => ([], .error e)
  | .ok selector =>
    let button := if hasKey step "button"
      then Option.some (pyStr ((dictGet? step "button").getD Value.none))
      else Option.none
    match (if hasKey step "click_count"
           then (pyInt ((dictGet? step "click_count").getD Value.none)).map Option.some
           else .ok Option.none : Except PyErr (Option Int)) with
    | .error e => ([], .error e)
    | .ok clickCount =>
      match (if hasKey step "delay"
             then (pyInt ((dictGet? step "delay").getD Value.none)).map Option.some
             else .ok Option.none : Except PyErr (Option Int)) with
      | .error e => ([], .error e)
      | .ok delay => doCall d (.click selector t button clickCount delay)

/-- `handle_check` (bot.py lines 204-209): `step.get("checked", True)`
chooses between `check` and `uncheck` by truthiness. -/
def handle_check : Handler := fun d step t _ =>
  match requireSelector step with
  | .error e => ([], .error e)
  | .ok selector =>
    if truthy ((dictGet? step "checked").getD (Value.bool true)) then
      doCall d (.check selector t)
    else
      doCall d (.uncheck selector t)

/-- Python `isinstance(v, Iterable)` element view used by `handle_select`:
lists iterate their elements, dicts their keys, bytes their byte values;
strings are excluded by the source's explicit check, and scalars are not
iterable. -/
def iterElems? : Value → Option (List Value)
  | .list xs => Option.some xs
  | .map es => Option.some (es.map (fun kv => Value.str kv.1))
  | .bytes bs => Option.some (bs.map (fun b => Value.num b))
  | _ => Option.none

/-- `handle_select` (bot.py lines 212-226). -/
def handle_select : Handler := fun d step t _ =>
  match requireSelector step with
  | .error e => ([], .error e)
  | .ok selector =>
    let value := (dictGet? step "value").getD Value.none
    let values := (dictGet? step "values").getD Value.none
    if isNoneV value && isNoneV values then
      ([], .error (.jobAutomation
        "Select action requires \x27value\x27 or \x27values\x27" Option.none))
    else
      let valueArg := if isNoneV value then Option.none
        else Option.some (pyStr value)
      let valuesArg := if isNoneV values then Option.none
        else match values with
          | .str s => Option.some [pyStr (Value.str s)]
          | v => match iterElems? v with
            | Option.some xs => Option.some (xs.map pyStr)
            | Option.none => Option.some [pyStr v]
      doCall d (.selectOption selector t valueArg valuesArg)

/-- `handle_upload` (bot.py lines 229-234): requires `selector` and the
presence of `files`; resolves every file entry through `_path_helper`
before the single `set_input_files` driver call. -/
def handle_upload : Handler := fun d step t bot =>
  match requireSelector step with
  | .error e => ([], .error e)
  | .ok selector =>
    if !hasKey step "files" then
      ([], .error (.jobAutomation "Upload action requires \x27files\x27" Option.none))
    else
      let files := ensureFiles bot ((dictGet? step "files").getD Value.none)
      doCall d (.setInputFiles selector files t)

/-- The `step.get("duration_ms") or step.get("ms") or 1000` expression of
`handle_wait`: Python `or` returns its first truthy operand, else the last
operand. -/
def waitDurationValue (step : List (String × Value)) : Value :=
  let a := (dictGet? step "duration_ms").getD Value.none
  let b := (dictGet? step "ms").getD Value.none
  if truthy a then a else if truthy b then b else Value.num 1000

/-- `handle_wait` (bot.py lines 237-239). -/
def handle_wait : Handler := fun d step _ _ =>
  match pyInt (waitDurationValue step) with
  | .error e => ([], .error e)
  | .ok duration => doCall d (.waitForTimeout duration)

/-- `handle_wait_for_selector` (bot.py lines 242-248): optional `state` is
forwarded when truthy. -/
def handle_wait_for_selector : Handler := fun d step t _ =>
  match requireSelector step with
  | .error e => ([], .error e)
  | .ok selector =>
    let state := (dictGet? step "state").getD Value.none
    let stateArg := if truthy state then Option.some (pyStr state) else Option.none
    doCall d (.waitForSelector selector t stateArg)

/-- Whether `needle` occurs as a substring of `hay` (Python `in` on str). -/
def strContains (hay needle : String) : Bool :=
  hay.toList.tails.any (fun t => needle.toList.isPrefixOf t)

/-- `handle_assert_text` (bot.py lines 251-265): `text` must not be `None`;
with a truthy `selector` the element is awaited and its inner text read,
otherwise the whole page content; a missing substring raises. -/
def handle_assert_text : Handler := fun d step t _ =>
  let selector := (dictGet? step "selector").getD Value.none
  let text := (dictGet? step "text").getD Value.none
  if isNoneV text then
    ([], .error (.jobAutomation "assert_text requires \x27text\x27" Option.none))
  else
    let contentRes :=
      if truthy selector then
        let sel := pyStr selector
        match d.act (.locatorWaitFor sel "visible" t) with
        | .error e => ([DriverCall.locatorWaitFor sel "visible" t], Except.error e)
        | .ok _ =>
          match d.innerTextRes sel with
          | .error e =>
            ([DriverCall.locatorWaitFor sel "visible" t, DriverCall.innerText sel],
             Except.error e)
          | .ok s =>
            ([DriverCall.locatorWaitFor sel "visible" t, DriverCall.innerText sel],
             Except.ok s)
      else
        match d.contentRes with
        | .error e => ([DriverCall.content], Except.error e)
        | .ok s => ([DriverCall.content], Except.ok s)
    match contentRes with
    | (calls, .error e) => (calls, .error e)
    | (calls, .ok content) =>
      if !strContains content (pyStr text) then
        (calls, .error (.jobAutomation
          ("assert_text failed to find \x27" ++ pyStr text ++
           "\x27 in the page content") Option.none))
      else (calls, .ok ())

/-- `handle_press` (bot.py lines 268-273): `step.get("keys") or
step.get("key")` by truthiness; a falsy result raises. -/
def handle_press : Handler := fun d step t _ =>
  match requireSelector step with
  | .error e => ([], .error e)
  | .ok selector =>
    let keysA := (dictGet? step "keys").getD Value.none
    let keysB := (dictGet? step "key").getD Value.none
    let keys := if truthy keysA then keysA else keysB
    if !truthy keys then
      ([], .error (.jobAutomation
        "press requires \x27keys\x27 or \x27key\x27" Option.none))
    else doCall d (.press selector (pyStr keys) t)

/-- `handle_hover` (bot.py lines 276-278). -/
def handle_hover : Handler := fun d step t _ =>
  match requireSelector step with
  | .error e => ([], .error e)
  | .ok selector => doCall d (.hover selector t)

/-- `handle_goto` (bot.py lines 281-286): a falsy or absent `url` raises;
`wait_until` defaults to "load". -/
def handle_goto : Handler := fun d step t _ =>
  let url := (dictGet? step "url").getD Value.none
  if !truthy url then
    ([], .error (.jobAutomation "goto action requires \x27url\x27" Option.none))
  else
    let waitUntil := pyStr ((dictGet? step "wait_until").getD (Value.str "load"))
    doCall d (.goto (pyStr url) waitUntil t)

/-- `ACTION_HANDLERS` (bot.py lines 289-302), as a lookup by action name. -/
def ACTION_HANDLERS (name : String) : Option Handler :=
  match name with
  | "goto" => Option.some handle_goto
  | "fill" => Option.some handle_fill
  | "type" => Option.some handle_type
  | "click" => Option.some handle_click
  | "check" => Option.some handle_check
  | "select" => Option.some handle_select
  | "upload" => Option.some handle_upload
  | "wait" => Option.some handle_wait
  | "wait_for_selector" => Option.some handle_wait_for_selector
  | "assert_text" => Option.some handle_assert_text
  | "press" => Option.some handle_press
  | "hover" => Option.some handle_hover
  | _ => Option.none

/-- `ACTION_HANDLERS.get(action)` where `action` is the popped (rendered)
value: only a string key can match the table. -/
def handlerFor : Value → Option Handler
  | .str s => ACTION_HANDLERS s
  | _ => Option.none

/-- `StepConfig` (config.py lines 22-27). -/
structure StepConfig where
  action : String
  options : List (String × Value)
deriving Repr

/-- `StepConfig.from_mapping` (config.py lines 29-35): requires the
presence of an `action` key (raising `ValueError` otherwise), converts its
value with `str`, and collects every other binding into `options`. -/
def StepConfig.from_mapping (data : List (String × Value)) :
    Except String StepConfig :=
  if !hasKey data "action" then
    .error "Every step must define an \x27action\x27 field"
  else
    let action := pyStr ((dictGet? data "action").getD Value.none)
    let options := data.filter (fun kv => kv.1 ≠ "action")
    .ok { action := action, options := options }

/-- `JobConfig` (config.py lines 38-45). -/
structure JobConfig where
  name : String
  url : String
  steps : List StepConfig
  metadata : List (String × Value)
deriving Repr

/-- `BrowserConfig` (config.py lines 12-19). -/
structure BrowserConfig where
  headless : Bool := true
  slow_mo : Option Int := Option.none
  timeout_ms : Int := 10000
  locale : Option String := Option.none
deriving Repr

/-- `AutomationConfig` (config.py lines 65-76); `source_path` is the
resolved configuration file path. -/
structure AutomationConfig where
  source_path : String
  profile : List (String × Value)
  browser : BrowserConfig
  jobs : List JobConfig
deriving Repr

/-- `AutomationConfig.base_dir` (config.py lines 74-76): the parent
directory of the source path. -/
def AutomationConfig.base_dir (cfg : AutomationConfig) : String :=
  parentDir cfg.source_path

/-- An observable event of a run: browser/context lifecycle, a driver
call, or a log line. -/
inductive Event where
  | launch (headless : Bool) (slowMo : Option Int)
  | newContext (locale : Option String)
  | newPage
  | closeContext
  | closeBrowser
  | driver (c : DriverCall)
  | log (msg : String)
deriving Repr, DecidableEq

/-- The `{"action": step.action, **step.options}` dict built by
`_execute_job` (and `_dry_run`): options merged over the action binding
with Python dict-merge semantics. -/
def stepDict (step : StepConfig) : List (String × Value) :=
  step.options.foldl (fun d kv => dictSet d kv.1 kv.2)
    [("action", Value.str step.action)]

/-- Entries of a `Value.map`; any other value has none (the rendered step
dict is always a map). -/
def asMapEntries : Value → List (String × Value)
  | .map es => es
  | _ => []

/-- `%02d` formatting of a step index. -/
def pad2 (n : Nat) : String :=
  if n < 10 then "0" ++ toString n else toString n

/-- The step loop of `_execute_job` (bot.py lines 135-147): render the
step dict, pop the `action`, log it, look up the handler (unknown action
raises), run the handler, and translate a driver timeout into a
step-scoped `JobAutomationError` carrying the step index and action. -/
def runSteps (evalT : TemplateEval) (d : Driver) (bot : Bot) (tmo : Int)
    (jobCtx : Ctx) : List StepConfig → Nat → List Event × Except PyErr Unit
  | [], _ => ([], .ok ())
  | step :: rest, index =>
    let es := asMapEntries (render evalT jobCtx (Value.map (stepDict step)))
    let actionVal := (dictGet? es "action").getD Value.none
    let opts := popKey es "action"
    let stepLog := Event.log ("  step " ++ pad2 index ++ " -> " ++ pyStr actionVal)
    match handlerFor actionVal with
    | Option.none =>
      ([stepLog], .error (.jobAutomation
        ("Unsupported action \x27" ++ pyStr actionVal ++ "\x27") Option.none))
    | Option.some h =>
      let hres := h d opts tmo bot
      let ev := stepLog :: hres.1.map Event.driver
      match hres.2 with
      | .ok _ =>
        let rec2 := runSteps evalT d bot tmo jobCtx rest (index + 1)
        (ev ++ rec2.1, rec2.2)
      | .error (.timeout m) =>
        (ev, .error (.jobAutomation
          ("Timed out waiting for selector during step " ++ toString index ++
           " (" ++ pyStr actionVal ++ ")") (Option.some (.timeout m))))
      | .error e => (ev, .error e)

/-- The `{"name": job.name, **job.metadata}` record of `_execute_job`. -/
def jobRecord (job : JobConfig) : Value :=
  Value.map (job.metadata.foldl (fun d kv => dictSet d kv.1 kv.2)
    [("name", Value.str job.name)])

/-- `_execute_job` (bot.py lines 124-147): build the job context, navigate
to the job URL (`_goto`, not protected by the step-level timeout handler),
then run the steps from index 1. -/
def executeJob (evalT : TemplateEval) (d : Driver) (bot : Bot) (tmo : Int)
    (job : JobConfig) (globalCtx : Ctx) : List Event × Except PyErr Unit :=
  let jobCtx := dictSet globalCtx "job" (jobRecord job)
  let navLog := Event.log ("  navigating to " ++ job.url)
  let navCall := DriverCall.goto job.url "load" tmo
  match d.act navCall with
  | .error e => ([navLog, .driver navCall], .error e)
  | .ok _ =>
    let res := runSteps evalT d bot tmo jobCtx job.steps 1
    (navLog :: .driver navCall :: res.1, res.2)

/-- `_job_context` (bot.py lines 112-122) wrapped around `_execute_job`:
open a fresh context (optional locale) and page, run the job, and close
the context on every exit path (the `finally`). -/
def jobContextRun (evalT : TemplateEval) (d : Driver) (bot : Bot) (tmo : Int)
    (locale : Option String) (job : JobConfig) (globalCtx : Ctx) :
    List Event × Except PyErr Unit :=
  let inner := executeJob evalT d bot tmo job globalCtx
  (Event.newContext locale :: Event.newPage :: inner.1 ++ [Event.closeContext],
   inner.2)

/-- Whether an exception is a `JobAutomationError`. -/
def isJobAutomation : PyErr → Bool
  | .jobAutomation _ _ => true
  | _ => false

/-- The `except JobAutomationError: raise / except Exception: raise
JobAutomationError(...) from exc` translation of `run` (bot.py lines
72-77). -/
def wrapJobError (jobName : String) (e : PyErr) : PyErr :=
  if isJobAutomation e then e
  else .jobAutomation ("Job \x27" ++ jobName ++ "\x27 failed with unexpected error")
    (Option.some e)

/-- The job loop of `run` (bot.py lines 67-77): run jobs in order; a
failure is translated by `wrapJobError` and stops the loop. -/
def runJobs (evalT : TemplateEval) (d : Driver) (bot : Bot) (tmo : Int)
    (locale : Option String) (globalCtx : Ctx) :
    List JobConfig → List Event × Except PyErr Unit
  | [] => ([], .ok ())
  | job :: rest =>
    let header := Event.log
      ("Running job \x27" ++ job.name ++ "\x27 (" ++ job.url ++ ")")
    let res := jobContextRun evalT d bot tmo locale job globalCtx
    match res.2 with
    | .ok _ =>
      let rec2 := runJobs evalT d bot tmo locale globalCtx rest
      (header :: res.1 ++ rec2.1, rec2.2)
    | .error e => (header :: res.1, .error (wrapJobError job.name e))

/-- The trace contributed by a list of jobs run through the job loop of
`run`: per job, the header log line followed by the `_job_context`
events. -/
def jobsTrace (evalT : TemplateEval) (d : Driver) (bot : Bot) (tmo : Int)
    (locale : Option String) (ctx : Ctx) (jobs : List JobConfig) : List Event :=
  jobs.flatMap (fun job =>
    Event.log ("Running job \x27" ++ job.name ++ "\x27 (" ++ job.url ++ ")") ::
    (jobContextRun evalT d bot tmo locale job ctx).1)

/-- `_build_template_context` (bot.py lines 84-88): the profile is rendered
against itself once, and the rendered profile becomes the base context. -/
def buildTemplateContext (evalT : TemplateEval) (cfg : AutomationConfig) : Ctx :=
  let rawProfile := cfg.profile
  let preliminary : Ctx := [("profile", Value.map rawProfile)]
  [("profile", render evalT preliminary (Value.map rawProfile))]

/-- `dataclasses.asdict` on a `StepConfig`. -/
def stepAsDict (s : StepConfig) : Value :=
  Value.map [("action", Value.str s.action), ("options", Value.map s.options)]

/-- `dataclasses.asdict` on a `JobConfig`. -/
def jobAsDict (j : JobConfig) : Value :=
  Value.map [("name", Value.str j.name), ("url", Value.str j.url),
    ("steps", Value.list (j.steps.map stepAsDict)),
    ("metadata", Value.map j.metadata)]

/-- The step loop of `_dry_run` for one job: log each rendered step. -/
def dryRunSteps (evalT : TemplateEval) (jobCtx : Ctx) :
    List StepConfig → Nat → List Event
  | [], _ => []
  | step :: rest, index =>
    Event.log ("  Step " ++ pad2 index ++ ": " ++
      pyStr (render evalT jobCtx (Value.map (stepDict step)))) ::
    dryRunSteps evalT jobCtx rest (index + 1)

/-- `_dry_run` (bot.py lines 104-110): for every job, log a header and the
rendered form of every step against the job-scoped context (which exposes
the full `asdict` job record).  Only log events are produced. -/
def dryRunTrace (evalT : TemplateEval) (cfg : AutomationConfig) (ctx : Ctx) :
    List Event :=
  cfg.jobs.flatMap (fun job =>
    Event.log ("[dry-run] Job \x27" ++ job.name ++ "\x27 -> " ++ job.url) ::
    dryRunSteps evalT (dictSet ctx "job" (jobAsDict job)) job.steps 1)

/-- `JobApplicationBot.run` (bot.py lines 47-79): build the context; in
dry-run mode only produce the dry-run log and return; otherwise launch the
browser (headless override > config), run jobs through `runJobs`, and
close the browser on every exit path (the `finally`). -/
def run (evalT : TemplateEval) (d : Driver) (cfg : AutomationConfig)
    (headlessOverride : Option Bool) (dryRun : Bool) :
    List Event × Except PyErr Unit :=
  let context := buildTemplateContext evalT cfg
  if dryRun then (dryRunTrace evalT cfg context, .ok ())
  else
    let headless := headlessOverride.getD cfg.browser.headless
    let bot : Bot := { base_dir := cfg.base_dir }
    let res := runJobs evalT d bot cfg.browser.timeout_ms cfg.browser.locale
      context cfg.jobs
    (Event.launch headless cfg.browser.slow_mo :: res.1 ++ [Event.closeBrowser],
     res.2)

mutual
/-- Erase the contents of every string leaf (keys untouched).  Two values
with the same image under `eraseStrings` have identical key sets and
nesting structure and identical non-string leaves. -/
def eraseStrings : Value → Value
  | .str _ => .str ""
  | .list xs => .list (eraseStringsList xs)
  | .map es => .map (eraseStringsEntries es)
  | v => v

def eraseStringsList : List Value → List Value
  | [] => []
  | v :: r => eraseStrings v :: eraseStringsList r

def eraseStringsEntries : List (String × Value) → List (String × Value)
  | [] => []
  | (k, v) :: r => (k, eraseStrings v) :: eraseStringsEntries r
end

/-- A string with none of Jinja2's default template markers
(variable, block, comment delimiters). -/
def noTemplateStr (s : String) : Bool :=
  !(strContains s "\x7b\x7b" || strContains s "\x7b%" || strContains s "\x7b#")

mutual
/-- A value all of whose string leaves contain no template expression. -/
def noTemplateVal : Value → Bool
  | .str s => noTemplateStr s
  | .list xs => noTemplateList xs
  | .map es => noTemplateEntries es
  | _ => true

def noTemplateList : List Value → Bool
  | [] => true
  | v :: r => noTemplateVal v && noTemplateList r

def noTemplateEntries : List (String × Value) → Bool
  | [] => true
  | (_, v) :: r => noTemplateVal v && noTemplateEntries r
end

/-- A template engine for concrete evaluations: the identity on the
template string (a legitimate engine on template-free strings). -/
def evalT0 : TemplateEval := fun s _ => s

/-- A concrete driver on which every call succeeds. -/
def d0 : Driver :=
  { act := fun _ => .ok (), innerTextRes := fun _ => .ok "", contentRes := .ok "" }

/-- A concrete driver on which every call succeeds except navigation to
`u2`, which raises a non-automation error. -/
def dFail2 : Driver :=
  { act := fun c =>
      match c with
      | .goto "u2" _ _ => .error (.other "boom")
      | _ => .ok (),
    innerTextRes := fun _ => .ok "", contentRes := .ok "" }

/-- A concrete bot whose configuration lives in `/cfg`. -/
def bot0 : Bot := { base_dir := "/cfg" }

/-- First job of the two-job fixture: a single step with an unsupported
action. -/
def j1c : JobConfig :=
  { name := "j1", url := "u1",
    steps := [{ action := "bogus", options := [] }], metadata := [] }

/-- Second job of the two-job fixture. -/
def j2c : JobConfig :=
  { name := "j2", url := "u2",
    steps := [{ action := "hover", options := [("selector", Value.str "#x")] }],
    metadata := [] }

/-- A two-job fixture configuration whose first job fails with an
unsupported action. -/
def cfg0 : AutomationConfig :=
  { source_path := "/cfg/c.yml", profile := [], browser := {},
    jobs := [j1c, j2c] }

/-- A job that fully succeeds under `dFail2` (navigation to `u0`, one
hover step). -/
def jok : JobConfig :=
  { name := "j0", url := "u0",
    steps := [{ action := "hover", options := [("selector", Value.str "#x")] }],
    metadata := [] }

/-- A two-job fixture whose first job succeeds and whose second job
(`j2c`, at url `u2`) fails under `dFail2` with a non-automation error. -/
def cfg3 : AutomationConfig :=
  { source_path := "/cfg/c.yml", profile := [], browser := {},
    jobs := [jok, j2c] }

/-- A template-free concrete value. -/
def v0 : Value :=
  Value.map [("a", Value.str "x"), ("b", Value.num 3),
    ("c", Value.list [Value.str "y", Value.bool true])]

/-- A concrete `fill` step for witnesses. -/
def step9 : StepConfig :=
  { action := "fill", options := [("selector", Value.str "#a")] }

theorem dictGet?_filter_ne :
    ∀ (es : List (String × Value)) (k k' : String), k ≠ k' →
      dictGet? (es.filter (fun kv => kv.1 ≠ k')) k = dictGet? es k
  | [], _, _, _ => rfl
  | (k₀, v₀) :: r, k, k', h => by
    have ih := dictGet?_filter_ne r k k' h
    simp only [decide_not] at ih
    by_cases hk : k₀ = k'
    · subst hk
      have hne : ¬(k₀ = k) := fun hkk => h (hkk ▸ rfl)
      simp [List.filter_cons, dictGet?, hne, ih]
    · simp [List.filter_cons, dictGet?, hk, ih]

theorem dictGet?_dictSet_ne (es : List (String × Value)) (k k' : String)
    (v : Value) (h : k ≠ k') :
    dictGet? (dictSet es k' v) k = dictGet? es k := by
  have hne : ¬(k' = k) := fun hkk => h (hkk ▸ rfl)
  simp only [dictSet, dictGet?, hne, if_false]
  exact dictGet?_filter_ne es k k' h

theorem dictGet?_foldl_dictSet :
    ∀ (l : List (String × Value)) (k : String), (∀ kv ∈ l, kv.1 ≠ k) →
      ∀ init, dictGet? (l.foldl (fun d kv => dictSet d kv.1 kv.2) init) k =
        dictGet? init k
  | [], _, _, _ => rfl
  | kv :: r, k, h, init => by
    have h1 : kv.1 ≠ k := h kv (List.mem_cons_self kv r)
    have h2 : ∀ kv' ∈ r, kv'.1 ≠ k := fun kv' hkv' => h kv' (List.mem_cons_of_mem kv hkv')
    simp only [List.foldl_cons]
    rw [dictGet?_foldl_dictSet r k h2 (dictSet init kv.1 kv.2)]
    exact dictGet?_dictSet_ne init k kv.1 kv.2 (Ne.symm h1)

theorem dictGet?_renderEntries (evalT : TemplateEval) (ctx : Ctx) :
    ∀ (es : List (String × Value)) (k : String),
      dictGet? (renderEntries evalT ctx es) k =
        (dictGet? es k).map (render evalT ctx)
  | [], _ => rfl
  | (k₀, v₀) :: r, k => by
    by_cases hk : k₀ = k
    · simp [renderEntries, dictGet?, hk]
    · simp [renderEntries, dictGet?, hk, dictGet?_renderEntries evalT ctx r k]

theorem dictGet?_popKey_self :
    ∀ (es : List (String × Value)) (k : String),
      dictGet? (popKey es k) k = Option.none
  | [], _ => rfl
  | (k₀, v₀) :: r, k => by
    have ih := dictGet?_popKey_self r k
    by_cases hk : k₀ = k
    · simpa [popKey, List.filter_cons, hk] using ih
    · simpa [popKey, List.filter_cons, hk, dictGet?] using ih

theorem hasKey_popKey_self (es : List (String × Value)) (k : String) :
    hasKey (popKey es k) k = false := by
  simp [hasKey, dictGet?_popKey_self]

theorem dictGet?_stepDict_action (step : StepConfig)
    (h : ∀ kv ∈ step.options, kv.1 ≠ "action") :
    dictGet? (stepDict step) "action" = Option.some (Value.str step.action) := by
  unfold stepDict
  rw [dictGet?_foldl_dictSet step.options "action" h]
  rfl

theorem renderEntries_keys (evalT : TemplateEval) (ctx : Ctx) :
    ∀ es : List (String × Value),
      (renderEntries evalT ctx es).map Prod.fst = es.map Prod.fst
  | [] => rfl
  | (k, v) :: r => by
    simp [renderEntries, renderEntries_keys evalT ctx r]

theorem requireSelector_ok (opts : List (String × Value))
    (h : truthy ((dictGet? opts "selector").getD Value.none) = true) :
    requireSelector opts =
      Except.ok (pyStr ((dictGet? opts "selector").getD Value.none)) := by
  simp [requireSelector, h]

mutual
theorem eraseStrings_render (evalT : TemplateEval) (ctx : Ctx) :
    (v : Value) → eraseStrings (render evalT ctx v) = eraseStrings v
  | .str s => by simp [render, eraseStrings]
  | .num n => by simp [render]
  | .bool b => by simp [render]
  | .none => by simp [render]
  | .bytes bs => by simp [render]
  | .list xs => by
    simp [render, eraseStrings, eraseStringsList_renderList evalT ctx xs]
  | .map es => by
    simp [render, eraseStrings, eraseStringsEntries_renderEntries evalT ctx es]

theorem eraseStringsList_renderList (evalT : TemplateEval) (ctx : Ctx) :
    (xs : List Value) →
      eraseStringsList (renderList evalT ctx xs) = eraseStringsList xs
  | [] => by simp [renderList]
  | v :: r => by
    simp [renderList, eraseStringsList, eraseStrings_render evalT ctx v,
      eraseStringsList_renderList evalT ctx r]

theorem eraseStringsEntries_renderEntries (evalT : TemplateEval) (ctx : Ctx) :
    (es : List (String × Value)) →
      eraseStringsEntries (renderEntries evalT ctx es) = eraseStringsEntries es
  | [] => by simp [renderEntries]
  | (k, v) :: r => by
    simp [renderEntries, eraseStringsEntries, eraseStrings_render evalT ctx v,
      eraseStringsEntries_renderEntries evalT ctx r]
end

mutual
theorem render_noTemplate (evalT : TemplateEval) (ctx : Ctx)
    (hE : ∀ s c, noTemplateStr s = true → evalT s c = s) :
    (v : Value) → noTemplateVal v = true → render evalT ctx v = v
  | .str s, h => by
    have hs : noTemplateStr s = true := by simpa [noTemplateVal] using h
    simp [render, hE s ctx hs]
  | .num n, _ => by simp [render]
  | .bool b, _ => by simp [render]
  | .none, _ => by simp [render]
  | .bytes bs, _ => by simp [render]
  | .list xs, h => by
    have hs : noTemplateList xs = true := by simpa [noTemplateVal] using h
    simp [render, renderList_noTemplate evalT ctx hE xs hs]
  | .map es, h => by
    have hs : noTemplateEntries es = true := by simpa [noTemplateVal] using h
    simp [render, renderEntries_noTemplate evalT ctx hE es hs]

theorem renderList_noTemplate (evalT : TemplateEval) (ctx : Ctx)
    (hE : ∀ s c, noTemplateStr s = true → evalT s c = s) :
    (xs : List Value) → noTemplateList xs = true → renderList evalT ctx xs = xs
  | [], _ => by simp [renderList]
  | v :: r, h => by
    have h2 : noTemplateVal v = true ∧ noTemplateList r = true := by
      simpa [noTemplateList, Bool.and_eq_true] using h
    simp [renderList, render_noTemplate evalT ctx hE v h2.1,
      renderList_noTemplate evalT ctx hE r h2.2]

theorem renderEntries_noTemplate (evalT : TemplateEval) (ctx : Ctx)
    (hE : ∀ s c, noTemplateStr s = true → evalT s c = s) :
    (es : List (String × Value)) → noTemplateEntries es = true →
      renderEntries evalT ctx es = es
  | [], _ => by simp [renderEntries]
  | (k, v) :: r, h => by
    have h2 : noTemplateVal v = true ∧ noTemplateEntries r = true := by
      simpa [noTemplateEntries, Bool.and_eq_true] using h
    simp [renderEntries, render_noTemplate evalT ctx hE v h2.1,
      renderEntries_noTemplate evalT ctx hE r h2.2]
end

theorem dryRunSteps_only_logs (evalT : TemplateEval) (jobCtx : Ctx) :
    ∀ (steps : List StepConfig) (i : Nat) (ev : Event),
      ev ∈ dryRunSteps evalT jobCtx steps i → ∃ m, ev = Event.log m
  | [], _, _, h => by simp [dryRunSteps] at h
  | s :: r, i, ev, h => by
    rw [dryRunSteps, List.mem_cons] at h
    rcases h with h | h
    · exact ⟨_, h⟩
    · exact dryRunSteps_only_logs evalT jobCtx r (i + 1) ev h

theorem dryRunTrace_only_logs (evalT : TemplateEval) (cfg : AutomationConfig)
    (ctx : Ctx) :
    ∀ ev ∈ dryRunTrace evalT cfg ctx, ∃ m, ev = Event.log m := by
  intro ev h
  rw [dryRunTrace, List.mem_flatMap] at h
  obtain ⟨job, _, hev⟩ := h
  rw [List.mem_cons] at hev
  rcases hev with hev | hev
  · exact ⟨_, hev⟩
  · exact dryRunSteps_only_logs evalT _ job.steps 1 ev hev

/-- C5: rendering a nested mapping against any context returns a mapping
with exactly the same key set and nesting structure, keys are not
rendered, and only string leaf values change (non-string scalars pass
through unchanged).  `eraseStrings` blanks exactly the string leaves, so
`eraseStrings (render v) = eraseStrings v` says everything except string
leaf contents — constructors, nesting, keys, non-string leaves — is
preserved; the remaining conjuncts state the mapping case explicitly. -/
theorem claim5_render_preserves_structure (evalT : TemplateEval) (ctx : Ctx) :
    (∀ v : Value, eraseStrings (render evalT ctx v) = eraseStrings v) ∧
    (∀ es : List (String × Value),
      render evalT ctx (Value.map es) = Value.map (renderEntries evalT ctx es) ∧
      (renderEntries evalT ctx es).map Prod.fst = es.map Prod.fst) :=
  ⟨fun v => eraseStrings_render evalT ctx v,
   fun es => ⟨by simp [render], renderEntries_keys evalT ctx es⟩⟩

/-- C6: for every value containing no template expressions and every
context, rendering twice yields the same result as rendering once
(assuming the template engine returns marker-free strings unchanged,
which is Jinja2's contract on template-free input). -/
theorem claim6_render_idempotent (evalT : TemplateEval) (ctx : Ctx) (v : Value)
    (hE : ∀ s c, noTemplateStr s = true → evalT s c = s)
    (hv : noTemplateVal v = true) :
    render evalT ctx (render evalT ctx v) = render evalT ctx v := by
  have h := render_noTemplate evalT ctx hE v hv
  rw [h, h]

/-- Witness for C6 at a concrete template-free value and the identity
engine. -/
theorem claim6_witness :
    noTemplateVal v0 = true ∧
    render evalT0 [] (render evalT0 [] v0) = render evalT0 [] v0 :=
  ⟨by decide, claim6_render_idempotent evalT0 [] v0 (fun _ _ _ => rfl) (by decide)⟩

/-- C7: for every upload step whose options carry a truthy selector and a
`files` list, the single driver call is `set_input_files` with every file
entry resolved through `_path_helper` against the configuration's base
directory; concretely, `resume.pdf` under base directory `/cfg` is passed
as `/cfg/resume.pdf`. -/
theorem claim7_upload_resolves (d : Driver) (opts : List (String × Value))
    (t : Int) (bot : Bot) (selv : Value) (fs : List Value)
    (hsel : dictGet? opts "selector" = Option.some selv)
    (ht : truthy selv = true)
    (hfiles : dictGet? opts "files" = Option.some (Value.list fs)) :
    handle_upload d opts t bot =
      ([DriverCall.setInputFiles (pyStr selv)
          (fs.map (fun f => pathHelper bot (pyStr f))) t],
       d.act (.setInputFiles (pyStr selv)
          (fs.map (fun f => pathHelper bot (pyStr f))) t)) ∧
    pathHelper { base_dir := "/cfg" } "resume.pdf" = "/cfg/resume.pdf" := by
  constructor
  · simp [handle_upload, requireSelector, hsel, ht, hasKey, hfiles, ensureFiles,
      doCall, List.map_map, Function.comp_def]
  · rfl

/-- Witness for C7: the concrete upload step from the spec's scenario. -/
theorem claim7_witness :
    handle_upload d0 [("selector", Value.str "#f"),
        ("files", Value.list [Value.str "resume.pdf"])] 5 bot0 =
      ([DriverCall.setInputFiles "#f" ["/cfg/resume.pdf"] 5], Except.ok ()) := by
  have h := claim7_upload_resolves d0
    [("selector", Value.str "#f"), ("files", Value.list [Value.str "resume.pdf"])]
    5 bot0 (Value.str "#f") [Value.str "resume.pdf"] rfl (by decide) rfl
  rw [h.1]
  rfl

/-- C8 counterexample: constructing a step from `{"action": ""}` succeeds
and yields an empty `action`, so "every successfully constructed step has
a non-empty action field" is false — `from_mapping` checks only the
presence of the key, not non-emptiness. -/
theorem claim8_counterexample :
    StepConfig.from_mapping [("action", Value.str "")] =
      Except.ok { action := "", options := [] } ∧ ¬(("" : String) ≠ "") :=
  ⟨rfl, fun h => h rfl⟩

/-- C8 amended: constructing a `StepConfig` from a mapping fails with a
validation error whenever the mapping lacks an `action` key; a
successfully constructed step's action is the string form of the mapping's
`action` value, which may be empty. -/
theorem claim8_action_mandatory (data : List (String × Value)) :
    (hasKey data "action" = false →
      StepConfig.from_mapping data =
        Except.error "Every step must define an \x27action\x27 field") ∧
    (∀ step, StepConfig.from_mapping data = Except.ok step →
      step.action = pyStr ((dictGet? data "action").getD Value.none) ∧
      step.options = data.filter (fun kv => kv.1 ≠ "action")) := by
  constructor
  · intro h
    simp [StepConfig.from_mapping, h]
  · intro step hstep
    by_cases h : hasKey data "action"
    · simp [StepConfig.from_mapping, h] at hstep
      rw [← hstep]
      exact ⟨rfl, by simp⟩
    · simp [StepConfig.from_mapping, h] at hstep

/-- Witness for C8's amended theorem: the empty mapping fails, and a
mapping with `action: "fill"` constructs a step whose action is the
string form of the value. -/
theorem claim8_witness :
    StepConfig.from_mapping ([] : List (String × Value)) =
      Except.error "Every step must define an \x27action\x27 field" ∧
    ({ action := "fill", options := [] } : StepConfig).action =
      pyStr ((dictGet? [("action", Value.str "fill")] "action").getD Value.none) := by
  refine ⟨(claim8_action_mandatory []).1 rfl, ?_⟩
  exact ((claim8_action_mandatory [("action", Value.str "fill")]).2
    { action := "fill", options := [] } rfl).1

/-- C10: the wait duration is chosen by truthiness, not presence: a falsy
`duration_ms` (0, empty, or absent) falls through to `ms`, a falsy `ms`
falls through to the default 1000, a truthy `duration_ms` takes
precedence, and a wait step whose `duration_ms` is 0 (with no truthy
`ms`, per the fall-through just stated) pauses for 1000 ms, never 0 ms. -/
theorem claim10_wait_truthiness (d : Driver) (opts : List (String × Value))
    (t : Int) (bot : Bot) :
    (truthy ((dictGet? opts "duration_ms").getD Value.none) = false →
      waitDurationValue opts =
        (if truthy ((dictGet? opts "ms").getD Value.none)
         then (dictGet? opts "ms").getD Value.none else Value.num 1000)) ∧
    (truthy ((dictGet? opts "duration_ms").getD Value.none) = true →
      waitDurationValue opts = (dictGet? opts "duration_ms").getD Value.none) ∧
    (dictGet? opts "duration_ms" = Option.some (Value.num 0) →
      truthy ((dictGet? opts "ms").getD Value.none) = false →
      handle_wait d opts t bot =
        ([DriverCall.waitForTimeout 1000], d.act (.waitForTimeout 1000)) ∧
      (1000 : Int) ≠ 0) := by
  refine ⟨fun h => ?_, fun h => ?_, fun h hms => ?_⟩
  · simp [waitDurationValue, h]
  · simp [waitDurationValue, h]
  · have hd : truthy ((dictGet? opts "duration_ms").getD Value.none) = false := by
      simp [h, truthy]
    refine ⟨?_, by decide⟩
    simp [handle_wait, waitDurationValue, hd, hms, pyInt, doCall]

/-- Witness for C10: a wait step whose options are exactly
`duration_ms: 0` pauses for 1000 ms. -/
theorem claim10_witness :
    handle_wait d0 [("duration_ms", Value.num 0)] 7 bot0 =
      ([DriverCall.waitForTimeout 1000], Except.ok ()) := by
  have h := (claim10_wait_truthiness d0 [("duration_ms", Value.num 0)] 7 bot0).2.2
    rfl (by decide)
  rw [h.1]
  rfl

/-- C1: for every supported action, a rendered options mapping that lacks
a required field makes the handler raise a field-specific
`JobAutomationError` with no driver call performed (empty call trace):
`selector` for fill/type/click/check/select/upload/wait_for_selector/
press/hover; additionally `value` for fill, `value`-or-`values` for
select, `files` for upload, `text` for assert_text, `url` for goto, and
`keys`-or-`key` for press. -/
theorem claim1_missing_field_validation (d : Driver)
    (opts : List (String × Value)) (t : Int) (bot : Bot) :
    (dictGet? opts "selector" = Option.none →
      handle_fill d opts t bot = ([], .error (.jobAutomation
        "Step requires a \x27selector\x27" Option.none)) ∧
      handle_type d opts t bot = ([], .error (.jobAutomation
        "Step requires a \x27selector\x27" Option.none)) ∧
      handle_click d opts t bot = ([], .error (.jobAutomation
        "Step requires a \x27selector\x27" Option.none)) ∧
      handle_check d opts t bot = ([], .error (.jobAutomation
        "Step requires a \x27selector\x27" Option.none)) ∧
      handle_select d opts t bot = ([], .error (.jobAutomation
        "Step requires a \x27selector\x27" Option.none)) ∧
      handle_upload d opts t bot = ([], .error (.jobAutomation
        "Step requires a \x27selector\x27" Option.none)) ∧
      handle_wait_for_selector d opts t bot = ([], .error (.jobAutomation
        "Step requires a \x27selector\x27" Option.none)) ∧
      handle_press d opts t bot = ([], .error (.jobAutomation
        "Step requires a \x27selector\x27" Option.none)) ∧
      handle_hover d opts t bot = ([], .error (.jobAutomation
        "Step requires a \x27selector\x27" Option.none))) ∧
    (truthy ((dictGet? opts "selector").getD Value.none) = true →
      dictGet? opts "value" = Option.none →
      handle_fill d opts t bot = ([], .error (.jobAutomation
        "Fill action requires a \x27value\x27" Option.none))) ∧
    (truthy ((dictGet? opts "selector").getD Value.none) = true →
      dictGet? opts "value" = Option.none →
      dictGet? opts "values" = Option.none →
      handle_select d opts t bot = ([], .error (.jobAutomation
        "Select action requires \x27value\x27 or \x27values\x27" Option.none))) ∧
    (truthy ((dictGet? opts "selector").getD Value.none) = true →
      dictGet? opts "files" = Option.none →
      handle_upload d opts t bot = ([], .error (.jobAutomation
        "Upload action requires \x27files\x27" Option.none))) ∧
    (dictGet? opts "text" = Option.none →
      handle_assert_text d opts t bot = ([], .error (.jobAutomation
        "assert_text requires \x27text\x27" Option.none))) ∧
    (dictGet? opts "url" = Option.none →
      handle_goto d opts t bot = ([], .error (.jobAutomation
        "goto action requires \x27url\x27" Option.none))) ∧
    (truthy ((dictGet? opts "selector").getD Value.none) = true →
      dictGet? opts "keys" = Option.none →
      dictGet? opts "key" = Option.none →
      handle_press d opts t bot = ([], .error (.jobAutomation
        "press requires \x27keys\x27 or \x27key\x27" Option.none))) := by
  refine ⟨fun h => ?_, fun hs hv => ?_, fun hs hv hvs => ?_, fun hs hf => ?_,
    fun ht => ?_, fun hu => ?_, fun hs hk hk2 => ?_⟩
  · refine ⟨?_, ?_, ?_, ?_, ?_, ?_, ?_, ?_, ?_⟩ <;>
      simp [handle_fill, handle_type, handle_click, handle_check, handle_select,
        handle_upload, handle_wait_for_selector, handle_press, handle_hover,
        requireSelector, h, truthy]
  · simp [handle_fill, requireSelector_ok opts hs, hasKey, hv]
  · simp [handle_select, requireSelector_ok opts hs, hv, hvs, isNoneV]
  · simp [handle_upload, requireSelector_ok opts hs, hasKey, hf]
  · simp [handle_assert_text, ht, isNoneV]
  · simp [handle_goto, hu, truthy]
  · simp [handle_press, requireSelector_ok opts hs, hk, hk2, truthy]

/-- Witness for C1: concrete handlers on concrete option mappings with a
missing required field. -/
theorem claim1_witness :
    handle_fill d0 [] 0 bot0 = ([], .error (.jobAutomation
      "Step requires a \x27selector\x27" Option.none)) ∧
    handle_fill d0 [("selector", Value.str "#a")] 0 bot0 =
      ([], .error (.jobAutomation
        "Fill action requires a \x27value\x27" Option.none)) ∧
    handle_select d0 [("selector", Value.str "#a")] 0 bot0 =
      ([], .error (.jobAutomation
        "Select action requires \x27value\x27 or \x27values\x27" Option.none)) ∧
    handle_upload d0 [("selector", Value.str "#a")] 0 bot0 =
      ([], .error (.jobAutomation
        "Upload action requires \x27files\x27" Option.none)) ∧
    handle_assert_text d0 [] 0 bot0 = ([], .error (.jobAutomation
      "assert_text requires \x27text\x27" Option.none)) ∧
    handle_goto d0 [] 0 bot0 = ([], .error (.jobAutomation
      "goto action requires \x27url\x27" Option.none)) ∧
    handle_press d0 [("selector", Value.str "#a")] 0 bot0 =
      ([], .error (.jobAutomation
        "press requires \x27keys\x27 or \x27key\x27" Option.none)) := by
  have h1 := claim1_missing_field_validation d0 [] 0 bot0
  have h2 := claim1_missing_field_validation d0 [("selector", Value.str "#a")] 0 bot0
  exact ⟨(h1.1 rfl).1, h2.2.1 (by decide) rfl, h2.2.2.1 (by decide) rfl rfl,
    h2.2.2.2.1 (by decide) rfl, h1.2.2.2.2.1 rfl, h1.2.2.2.2.2.1 rfl,
    h2.2.2.2.2.2.2 (by decide) rfl rfl⟩

/-- C9: before dispatch the step's `action` string is itself rendered as a
template against the job-scoped context, and the rendered `action` key is
popped from the options before they reach the handler: for steps built by
`StepConfig.from_mapping` (whose options never contain an `action` key),
the popped action is exactly the template-evaluation of the step's action
string, the dispatcher looks that string up in `ACTION_HANDLERS`, and the
options passed on have no `action` key. -/
theorem claim9_action_rendered_popped (evalT : TemplateEval) (ctx : Ctx) :
    (∀ data step, StepConfig.from_mapping data = Except.ok step →
      ∀ kv ∈ step.options, kv.1 ≠ "action") ∧
    (∀ step : StepConfig, (∀ kv ∈ step.options, kv.1 ≠ "action") →
      (dictGet? (asMapEntries (render evalT ctx (Value.map (stepDict step))))
          "action" = Option.some (Value.str (evalT step.action ctx))) ∧
      handlerFor ((dictGet? (asMapEntries (render evalT ctx
          (Value.map (stepDict step)))) "action").getD Value.none) =
        ACTION_HANDLERS (evalT step.action ctx) ∧
      hasKey (popKey (asMapEntries (render evalT ctx
          (Value.map (stepDict step)))) "action") "action" = false) := by
  constructor
  · intro data step hstep kv hkv
    have hopts := ((claim8_action_mandatory data).2 step hstep).2
    rw [hopts] at hkv
    have := List.mem_filter.mp hkv
    simpa using this.2
  · intro step h
    have hes : asMapEntries (render evalT ctx (Value.map (stepDict step))) =
        renderEntries evalT ctx (stepDict step) := by
      simp [render, asMapEntries]
    have hget : dictGet? (asMapEntries (render evalT ctx
        (Value.map (stepDict step)))) "action" =
        Option.some (Value.str (evalT step.action ctx)) := by
      rw [hes, dictGet?_renderEntries, dictGet?_stepDict_action step h]
      simp [render]
    refine ⟨hget, ?_, hasKey_popKey_self _ _⟩
    rw [hget]
    simp [handlerFor]

/-- Witness for C9: a concrete `fill` step. -/
theorem claim9_witness :
    dictGet? (asMapEntries (render evalT0 [] (Value.map (stepDict step9))))
        "action" = Option.some (Value.str "fill") ∧
    hasKey (popKey (asMapEntries (render evalT0 []
        (Value.map (stepDict step9)))) "action") "action" = false := by
  have h := (claim9_action_rendered_popped evalT0 []).2 step9 (by decide)
  exact ⟨h.1, h.2.2⟩

/-- C2: in live mode, when the first job fails, its browsing context is
closed before the error propagates out of the job (the `closeContext`
event is in the run's trace, directly after the job's own events), no
event of any later job appears (the trace ends right after `closeContext`
with the run-level `closeBrowser`), and every job run through
`_job_context` emits `closeContext` as its final event regardless of
outcome. -/
theorem claim2_context_closed_before_error (evalT : TemplateEval) (d : Driver)
    (cfg : AutomationConfig) (override : Option Bool) (j1 : JobConfig)
    (rest : List JobConfig) (ev1 : List Event) (e : PyErr)
    (hjobs : cfg.jobs = j1 :: rest)
    (hfail : executeJob evalT d { base_dir := cfg.base_dir }
        cfg.browser.timeout_ms j1 (buildTemplateContext evalT cfg) =
        (ev1, .error e)) :
    run evalT d cfg override false =
      (Event.launch (override.getD cfg.browser.headless) cfg.browser.slow_mo ::
        Event.log ("Running job \x27" ++ j1.name ++ "\x27 (" ++ j1.url ++ ")") ::
        Event.newContext cfg.browser.locale :: Event.newPage ::
        (ev1 ++ [Event.closeContext, Event.closeBrowser]),
       .error (wrapJobError j1.name e)) ∧
    (∀ (job : JobConfig) (gctx : Ctx), ∃ pre,
      (jobContextRun evalT d { base_dir := cfg.base_dir } cfg.browser.timeout_ms
        cfg.browser.locale job gctx).1 = pre ++ [Event.closeContext]) := by
  constructor
  · rw [run]
    simp only [if_false, Bool.false_eq_true]
    rw [hjobs, runJobs]
    simp [jobContextRun, hfail]
  · intro job gctx
    refine ⟨Event.newContext cfg.browser.locale :: Event.newPage ::
      (executeJob evalT d { base_dir := cfg.base_dir } cfg.browser.timeout_ms
        job gctx).1, ?_⟩
    simp [jobContextRun]

/-- Witness for C2: the concrete two-job configuration whose first job
has an unsupported action — job 2 contributes no events and the context
close precedes the propagated error. -/
theorem claim2_witness :
    run evalT0 d0 cfg0 Option.none false =
      ([Event.launch true Option.none,
        Event.log "Running job \x27j1\x27 (u1)",
        Event.newContext Option.none, Event.newPage,
        Event.log "  navigating to u1",
        Event.driver (DriverCall.goto "u1" "load" 10000),
        Event.log "  step 01 -> bogus",
        Event.closeContext, Event.closeBrowser],
       .error (.jobAutomation "Unsupported action \x27bogus\x27" Option.none)) := by
  have h := claim2_context_closed_before_error evalT0 d0 cfg0 Option.none j1c
    [j2c]
    [Event.log "  navigating to u1", Event.driver (DriverCall.goto "u1" "load" 10000),
      Event.log "  step 01 -> bogus"]
    (.jobAutomation "Unsupported action \x27bogus\x27" Option.none) rfl rfl
  rw [h.1]
  rfl

/-- The job loop on a list whose prefix of jobs all succeed and whose
next job fails: the loop's trace is the prefix jobs' traces followed by
the failing job's header, context open, events and context close —
nothing from the jobs after the failure — and the result is the
translated error. -/
theorem runJobs_prefix_fail (evalT : TemplateEval) (d : Driver) (bot : Bot)
    (tmo : Int) (locale : Option String) (ctx : Ctx) :
    ∀ (pre : List JobConfig) (j : JobConfig) (rest : List JobConfig)
      (evj : List Event) (e : PyErr),
      (∀ jb ∈ pre, (executeJob evalT d bot tmo jb ctx).2 = .ok ()) →
      executeJob evalT d bot tmo j ctx = (evj, .error e) →
      runJobs evalT d bot tmo locale ctx (pre ++ j :: rest) =
        (jobsTrace evalT d bot tmo locale ctx pre ++
          Event.log ("Running job \x27" ++ j.name ++ "\x27 (" ++ j.url ++ ")") ::
          Event.newContext locale :: Event.newPage ::
          (evj ++ [Event.closeContext]),
         .error (wrapJobError j.name e))
  | [], j, rest, evj, e, _, hfail => by
    rw [List.nil_append, runJobs]
    simp [jobContextRun, hfail, jobsTrace]
  | jb :: pre, j, rest, evj, e, hpre, hfail => by
    have hok : (executeJob evalT d bot tmo jb ctx).2 = .ok () :=
      hpre jb (List.mem_cons_self jb pre)
    have hpre' : ∀ jb' ∈ pre, (executeJob evalT d bot tmo jb' ctx).2 = .ok () :=
      fun jb' h => hpre jb' (List.mem_cons_of_mem jb h)
    have ih := runJobs_prefix_fail evalT d bot tmo locale ctx pre j rest evj e
      hpre' hfail
    rw [List.cons_append, runJobs]
    simp [jobContextRun, hok, ih, jobsTrace, List.append_assoc]

/-- C3: for every exception raised during any job's execution in live
mode — after any prefix of successfully completed jobs — the exception
propagates unchanged when it is already a `JobAutomationError`, and is
otherwise wrapped into a job-scoped `JobAutomationError` whose cause is
the original exception; either way the run stops: the trace holds the
prefix jobs' events, the failing job's events exactly once (no retry),
and nothing from any later job. -/
theorem claim3_error_wrapping (evalT : TemplateEval) (d : Driver)
    (cfg : AutomationConfig) (override : Option Bool) (pre : List JobConfig)
    (j : JobConfig) (rest : List JobConfig) (evj : List Event) (e : PyErr)
    (hjobs : cfg.jobs = pre ++ j :: rest)
    (hpre : ∀ jb ∈ pre, (executeJob evalT d { base_dir := cfg.base_dir }
        cfg.browser.timeout_ms jb (buildTemplateContext evalT cfg)).2 = .ok ())
    (hfail : executeJob evalT d { base_dir := cfg.base_dir }
        cfg.browser.timeout_ms j (buildTemplateContext evalT cfg) =
        (evj, .error e)) :
    (run evalT d cfg override false).2 = .error (wrapJobError j.name e) ∧
    (isJobAutomation e = true → wrapJobError j.name e = e) ∧
    (isJobAutomation e = false → wrapJobError j.name e =
      .jobAutomation ("Job \x27" ++ j.name ++ "\x27 failed with unexpected error")
        (Option.some e)) ∧
    (run evalT d cfg override false).1 =
      Event.launch (override.getD cfg.browser.headless) cfg.browser.slow_mo ::
        (jobsTrace evalT d { base_dir := cfg.base_dir } cfg.browser.timeout_ms
          cfg.browser.locale (buildTemplateContext evalT cfg) pre ++
         Event.log ("Running job \x27" ++ j.name ++ "\x27 (" ++ j.url ++ ")") ::
         Event.newContext cfg.browser.locale :: Event.newPage ::
         (evj ++ [Event.closeContext, Event.closeBrowser])) := by
  have hrun : run evalT d cfg override false =
      (Event.launch (override.getD cfg.browser.headless) cfg.browser.slow_mo ::
        (jobsTrace evalT d { base_dir := cfg.base_dir } cfg.browser.timeout_ms
          cfg.browser.locale (buildTemplateContext evalT cfg) pre ++
         Event.log ("Running job \x27" ++ j.name ++ "\x27 (" ++ j.url ++ ")") ::
         Event.newContext cfg.browser.locale :: Event.newPage ::
         (evj ++ [Event.closeContext, Event.closeBrowser])),
       .error (wrapJobError j.name e)) := by
    rw [run]
    simp only [if_false, Bool.false_eq_true]
    rw [hjobs, runJobs_prefix_fail evalT d { base_dir := cfg.base_dir }
      cfg.browser.timeout_ms cfg.browser.locale (buildTemplateContext evalT cfg)
      pre j rest evj e hpre hfail]
    simp [List.append_assoc]
  refine ⟨by rw [hrun], fun h => ?_, fun h => ?_, by rw [hrun]⟩
  · simp [wrapJobError, h]
  · simp [wrapJobError, h]

/-- Witness for C3: a run whose first job succeeds and whose second job's
navigation raises a non-automation error — the result is the wrapped
job-scoped error for the second job, with the original as cause. -/
theorem claim3_witness :
    (run evalT0 dFail2 cfg3 Option.none false).2 =
      .error (.jobAutomation "Job \x27j2\x27 failed with unexpected error"
        (Option.some (.other "boom"))) := by
  have h := claim3_error_wrapping evalT0 dFail2 cfg3 Option.none [jok] j2c []
    [Event.log "  navigating to u2", Event.driver (DriverCall.goto "u2" "load" 10000)]
    (.other "boom") rfl
    (by
      intro jb hjb
      rw [List.mem_singleton] at hjb
      subst hjb
      rfl)
    rfl
  rw [h.1, h.2.2.1 rfl]
  rfl

/-- C4: running any configuration with dry_run=true yields a successful
result whose trace consists solely of log events — no browser launch, no
context, no page, and no driver call ever occurs. -/
theorem claim4_dry_run_no_driver (evalT : TemplateEval) (d : Driver)
    (cfg : AutomationConfig) (override : Option Bool) :
    (run evalT d cfg override true).2 = .ok () ∧
    ∀ ev ∈ (run evalT d cfg override true).1, ∃ m, ev = Event.log m := by
  constructor
  · rfl
  · intro ev h
    rw [run] at h
    simp only [if_true] at h
    exact dryRunTrace_only_logs evalT cfg (buildTemplateContext evalT cfg) ev h

/-- Witness for C4: the two-job fixture in dry-run mode, with its first
trace event (a log line) as the concrete member. -/
theorem claim4_witness :
    (run evalT0 d0 cfg0 Option.none true).2 = Except.ok () ∧
    ∃ m, (Event.log "[dry-run] Job \x27j1\x27 -> u1" : Event) = Event.log m := by
  have h := claim4_dry_run_no_driver evalT0 d0 cfg0 Option.none
  exact ⟨h.1, h.2 (Event.log "[dry-run] Job \x27j1\x27 -> u1") (by decide)⟩

end JobBot

